import Mathlib

/-!
Shallow embedding of the ksensetech patient risk-assessment pipeline
(src/index.js together with the fetchWithRetry variant in src/unnamed/part_001;
the two agree on every function they share).  JavaScript numbers are modelled
as rationals plus an explicit NaN; Infinity and non-decimal numeric literals
(hex, octal, binary) are not modelled, since no scoring path produces or
consumes them.  Timing (backoff delays, jitter, sleeps) is elided from the
fetch model: it never influences the returned value or the number of requests.
-/

/-- A JavaScript number: either NaN or a rational value. -/
inductive JSNum where
  | nan : JSNum
  | num : ℚ → JSNum
deriving DecidableEq, Repr

/-- A JavaScript value as it can appear in a patient record field. -/
inductive JSValue where
  | undef : JSValue
  | null : JSValue
  | str : String → JSValue
  | number : JSNum → JSValue
  | boolean : Bool → JSValue
  | obj : JSValue
deriving DecidableEq, Repr

/-- Source isInvalid: value === null || value === undefined || value === "".
Strict equality does not coerce, so only the empty string matches "". -/
def isInvalid : JSValue → Bool
  | .null => true
  | .undef => true
  | .str s => s = ""
  | _ => false

/-- JS comparison n < q: false when n is NaN. -/
def numLt (n : JSNum) (q : ℚ) : Bool :=
  match n with
  | .num a => a < q
  | .nan => false

/-- JS comparison n <= q: false when n is NaN. -/
def numLe (n : JSNum) (q : ℚ) : Bool :=
  match n with
  | .num a => a ≤ q
  | .nan => false

/-- JS comparison n >= q: false when n is NaN. -/
def numGe (n : JSNum) (q : ℚ) : Bool :=
  match n with
  | .num a => q ≤ a
  | .nan => false

/-- JS comparison n > q: false when n is NaN. -/
def numGt (n : JSNum) (q : ℚ) : Bool :=
  match n with
  | .num a => q < a
  | .nan => false

/-- Comparison on a destructured array slot: undefined (none) compares false,
like NaN, because undefined coerces to NaN in numeric comparison. -/
def oLt (n : Option JSNum) (q : ℚ) : Bool :=
  match n with
  | some m => numLt m q
  | none => false

/-- See oLt. -/
def oLe (n : Option JSNum) (q : ℚ) : Bool :=
  match n with
  | some m => numLe m q
  | none => false

/-- See oLt. -/
def oGe (n : Option JSNum) (q : ℚ) : Bool :=
  match n with
  | some m => numGe m q
  | none => false

/-- Number.isNaN on a JSNum. -/
def jsIsNaN : JSNum → Bool
  | .nan => true
  | .num _ => false

/-- Number.isNaN on a destructured array slot: Number.isNaN(undefined) is
false because Number.isNaN does not coerce its argument. -/
def jsIsNaNOpt : Option JSNum → Bool
  | none => false
  | some m => jsIsNaN m

/-- JS whitespace as far as Number() trimming is concerned (ASCII subset). -/
def isJsSpace (c : Char) : Bool :=
  c = ' ' ∨ c = '\t' ∨ c = '\n' ∨ c = '\r' ∨ c = '\x0b' ∨ c = '\x0c'

/-- Strip leading and trailing whitespace from a character list. -/
def trimChars (cs : List Char) : List Char :=
  ((cs.dropWhile isJsSpace).reverse.dropWhile isJsSpace).reverse

/-- JS String.prototype.split with separator "/": the empty string yields one
empty part, mirroring "".split("/") === [""]. -/
def splitSlash : List Char → List (List Char)
  | [] => [[]]
  | c :: cs =>
    let r := splitSlash cs
    if c = '/' then [] :: r
    else
      match r with
      | [] => [[c]]
      | p :: ps => (c :: p) :: ps

/-- Numeric value of a digit character. -/
def digVal (c : Char) : Nat := c.toNat - 48

/-- Value of a digit sequence read left to right. -/
def natOfDigits (ds : List Char) : Nat :=
  ds.foldl (fun a c => a * 10 + digVal c) 0

/-- Split a character list into its leading decimal digits and the rest. -/
def takeDigits : List Char → List Char × List Char
  | [] => ([], [])
  | c :: cs =>
    if c.isDigit then
      let p := takeDigits cs
      (c :: p.1, p.2)
    else ([], c :: cs)

/-- Parse an optional exponent suffix e[sign]digits; must consume the whole
remaining input. Empty input means exponent 0. -/
def parseExp : List Char → Option Int
  | [] => some 0
  | c :: cs =>
    if c = 'e' ∨ c = 'E' then
      match cs with
      | '+' :: cs2 =>
        let p := takeDigits cs2
        if p.1 = [] ∨ p.2 ≠ [] then none else some (natOfDigits p.1 : Int)
      | '-' :: cs2 =>
        let p := takeDigits cs2
        if p.1 = [] ∨ p.2 ≠ [] then none else some (-(natOfDigits p.1 : Int))
      | cs2 =>
        let p := takeDigits cs2
        if p.1 = [] ∨ p.2 ≠ [] then none else some (natOfDigits p.1 : Int)
    else none

/-- Parse an unsigned decimal mantissa digits[.digits] or .digits, returning
the value of all its digits, the length of the fractional part, and the
unconsumed input. -/
def parseMantissa (cs : List Char) : Option (Nat × Nat × List Char) :=
  let p := takeDigits cs
  match p.2 with
  | '.' :: rest2 =>
    let f := takeDigits rest2
    if p.1 = [] ∧ f.1 = [] then none
    else some (natOfDigits (p.1 ++ f.1), f.1.length, f.2)
  | _ =>
    if p.1 = [] then none else some (natOfDigits p.1, 0, p.2)

/-- Parse an unsigned decimal number with optional exponent, consuming the
whole input; the result is a digit value m and a decimal exponent e encoding
the value m times 10 to the e. -/
def parseUnsigned (cs : List Char) : Option (Nat × Int) :=
  match parseMantissa cs with
  | none => none
  | some (m, flen, rest) =>
    match parseExp rest with
    | none => none
    | some e => some (m, e - (flen : Int))

/-- The rational value of a parsed decimal: sign, digit value and decimal
exponent.  Built with one mkRat so that the kernel can evaluate it. -/
def decToRat (neg : Bool) (m : Nat) (e : Int) : ℚ :=
  let n : Int := if neg then -(m : Int) else (m : Int)
  if 0 ≤ e then mkRat (n * ((10 : Int) ^ e.toNat)) 1
  else mkRat n ((10 : Nat) ^ (-e).toNat)

/-- JS Number() coercion of a string, restricted to decimal notation: the
string is trimmed, the empty string coerces to 0, and an optional sign
precedes a decimal mantissa with optional exponent; anything else is NaN. -/
def jsNumber (s : List Char) : JSNum :=
  let t := trimChars s
  if t = [] then .num 0
  else
    match t with
    | '+' :: cs =>
      match parseUnsigned cs with
      | some (m, e) => .num (decToRat false m e)
      | none => .nan
    | '-' :: cs =>
      match parseUnsigned cs with
      | some (m, e) => .num (decToRat true m e)
      | none => .nan
    | cs =>
      match parseUnsigned cs with
      | some (m, e) => .num (decToRat false m e)
      | none => .nan

/-- Source parseBP: rejects invalid or non-string values, splits on "/", maps
Number over the parts, destructures the first two slots (the second is
undefined when only one part exists; later parts are ignored), and returns
null exactly when Number.isNaN holds of a destructured slot.  Note that
Number.isNaN(undefined) is false, so a one-part string passes. -/
def parseBP (bp : JSValue) : Option (Option JSNum × Option JSNum) :=
  if isInvalid bp then none
  else
    match bp with
    | .str s =>
      let nums := (splitSlash s.toList).map jsNumber
      let sys := nums[0]?
      let dia := nums[1]?
      if jsIsNaNOpt sys ∨ jsIsNaNOpt dia then none
      else some (sys, dia)
    | _ => none

/-- Result of one signal scorer.  The source returns plain objects; a missing
invalid key is falsy, modelled as invalid := false. -/
structure ScoreResult where
  score : Nat
  invalid : Bool
deriving DecidableEq, Repr

/-- Source bpScore: data-quality failure when parseBP returns null, otherwise
the four-branch cascade on (sys, dia) with a residual score of 0. -/
def bpScore (bp : JSValue) : ScoreResult :=
  match parseBP bp with
  | none => ⟨0, true⟩
  | some (sys, dia) =>
    if oLt sys 120 && oLt dia 80 then ⟨0, false⟩
    else if oGe sys 120 && oLe sys 129 && oLt dia 80 then ⟨1, false⟩
    else if (oGe sys 130 && oLe sys 139) || (oGe dia 80 && oLe dia 89) then ⟨2, false⟩
    else if oGe sys 140 || oGe dia 90 then ⟨3, false⟩
    else ⟨0, false⟩

/-- Source tempScore: data-quality failure when the value is invalid or not a
number (NaN is a number, so it reaches the cascade and falls through every
comparison to the residual score 0 with no invalid flag). -/
def tempScore (v : JSValue) : ScoreResult :=
  if isInvalid v then ⟨0, true⟩
  else
    match v with
    | .number t =>
      if numLe t (mkRat 995 10) then ⟨0, false⟩
      else if numGe t (mkRat 996 10) && numLe t (mkRat 1009 10) then ⟨1, false⟩
      else if numGe t (101 : ℚ) then ⟨2, false⟩
      else ⟨0, false⟩
    | _ => ⟨0, true⟩

/-- Source ageScore: data-quality failure when the value is invalid or not a
number, otherwise the three-bracket cascade with a residual score 0. -/
def ageScore (v : JSValue) : ScoreResult :=
  if isInvalid v then ⟨0, true⟩
  else
    match v with
    | .number a =>
      if numLt a (40 : ℚ) then ⟨0, false⟩
      else if numGe a (40 : ℚ) && numLe a (65 : ℚ) then ⟨1, false⟩
      else if numGt a (65 : ℚ) then ⟨2, false⟩
      else ⟨0, false⟩
    | _ => ⟨0, true⟩

/-- A raw patient record.  Every field except the id is untrusted and may be
any JS value. -/
structure Patient where
  patient_id : String
  blood_pressure : JSValue
  temperature : JSValue
  age : JSValue
deriving DecidableEq, Repr

/-- The three accumulated output lists of the run. -/
structure Report where
  high_risk_patients : List String
  fever_patients : List String
  data_quality_issues : List String
deriving DecidableEq, Repr

/-- The empty report the run starts from. -/
def emptyReport : Report := ⟨[], [], []⟩

/-- Total risk of one record: the sum of the three signal scores exactly as
the loop body computes it. -/
def totalRiskOf (p : Patient) : Nat :=
  (bpScore p.blood_pressure).score + (tempScore p.temperature).score +
    (ageScore p.age).score

/-- Source fever test: typeof p.temperature === "number" and value >= 99.6.
It reads the raw field, not the tempScore result. -/
def feverCheck : JSValue → Bool
  | .number t => numGe t (mkRat 996 10)
  | _ => false

/-- Body of the classification loop in run: score the three signals, then
push the patient id onto data_quality_issues, fever_patients and
high_risk_patients according to the three independent conditions. -/
def processPatient (r : Report) (p : Patient) : Report :=
  let bp := bpScore p.blood_pressure
  let temp := tempScore p.temperature
  let age := ageScore p.age
  let totalRisk := bp.score + temp.score + age.score
  let r1 :=
    if bp.invalid || temp.invalid || age.invalid then
      { r with data_quality_issues := r.data_quality_issues ++ [p.patient_id] }
    else r
  let r2 :=
    if feverCheck p.temperature then
      { r1 with fever_patients := r1.fever_patients ++ [p.patient_id] }
    else r1
  if 4 ≤ totalRisk then
    { r2 with high_risk_patients := r2.high_risk_patients ++ [p.patient_id] }
  else r2

/-- One page of the patients API as the driver consumes it: the data array,
pagination.total and pagination.hasNext. -/
structure PageResp where
  data : List Patient
  total : Int
  hasNext : Bool
deriving DecidableEq, Repr

/-- Everything the run produces: the payload report, processedCount, the
captured totalExpected and whether the mismatch warning fired. -/
structure RunResult where
  report : Report
  processed : Nat
  totalExpected : Int
  warned : Bool
deriving DecidableEq, Repr

/-- The while-hasNext loop of run, driven by the list of page responses the
server would return for pages 1, 2, and so on.  The accumulators mirror the
mutable locals; texp is totalExpected (none is the initial null, and it is
assigned only when still null, so only the first page is captured).  The
result is none when the provided pages run out while hasNext is still true,
which stands for behaviour outside this model (a further fetch). -/
def runPages : List PageResp → Report → Nat → Option Int → Option RunResult
  | [], _, _, _ => none
  | pg :: rest, rep, count, texp =>
    let texp2 : Int := texp.getD pg.total
    let rep2 := pg.data.foldl processPatient rep
    let count2 := count + pg.data.length
    if pg.hasNext then runPages rest rep2 count2 (some texp2)
    else some ⟨rep2, count2, texp2, decide ((count2 : Int) ≠ texp2)⟩

/-- Source run: the loop started on the empty accumulators at page 1. -/
def run (pages : List PageResp) : Option RunResult :=
  runPages pages emptyReport 0 none

/-- The records the loop actually consumes: every page up to and including
the first one whose hasNext is false. -/
def collectedData : List PageResp → List Patient
  | [] => []
  | pg :: rest => if pg.hasNext then pg.data ++ collectedData rest else pg.data

/-- What one attempt of the underlying fetch produces: a thrown transport
error or a response carrying an HTTP status. -/
inductive FetchOutcome where
  | netErr : FetchOutcome
  | resp : Nat → FetchOutcome
deriving DecidableEq, Repr

/-- JS Response.ok: status in the 2xx range. -/
def isOk (s : Nat) : Bool := 200 ≤ s && s < 300

/-- The retryable status codes [429, 500, 502, 503].includes(res.status). -/
def isRetryable (s : Nat) : Bool := s = 429 || s = 500 || s = 502 || s = 503

/-- How a fetchWithRetry invocation can end. -/
inductive FetchResult where
  | success : Nat → Nat → FetchResult
  | exhausted : Nat → Nat → FetchResult
  | nonRetryable : Nat → FetchResult
  | networkError : FetchResult
deriving DecidableEq, Repr

/-- Source fetchWithRetry of src/unnamed/part_001, with the k-th request's
outcome supplied by oracle k.  The result also counts the requests issued.
Control flow follows the source exactly: a thrown retries-exhausted error is
re-examined by the surrounding catch (attempt > retries there, so it
propagates), while the thrown non-retryable error is caught by that same
catch and, when attempt <= retries, RETRIED like a network error, because the
throw sits inside its own try block.  The recursive calls are returned
without await, so their rejections bypass the catch.  Sleeps and delay
arithmetic are elided; they never affect the result or the request count. -/
def fetchWithRetry (oracle : Nat → FetchOutcome) (retries attempt : Nat) :
    FetchResult × Nat :=
  match oracle attempt with
  | .netErr =>
    if _h : attempt ≤ retries then
      let p := fetchWithRetry oracle retries (attempt + 1)
      (p.1, p.2 + 1)
    else (.networkError, 1)
  | .resp status =>
    if isOk status then (.success status attempt, 1)
    else if isRetryable status then
      if retries < attempt then (.exhausted retries status, 1)
      else
        let p := fetchWithRetry oracle retries (attempt + 1)
        (p.1, p.2 + 1)
    else
      if _h : attempt ≤ retries then
        let p := fetchWithRetry oracle retries (attempt + 1)
        (p.1, p.2 + 1)
      else (.nonRetryable status, 1)
termination_by retries + 1 - attempt
decreasing_by
  all_goals omega

/-- The blood-pressure table of the specification, transcribed from its own
words (five branches, first match wins) for comparison against bpScore. -/
def specBPTable (S D : ℚ) : Nat :=
  if S < 120 ∧ D < 80 then 0
  else if 120 ≤ S ∧ S ≤ 129 ∧ D < 80 then 1
  else if (130 ≤ S ∧ S ≤ 139) ∨ (80 ≤ D ∧ D ≤ 89) then 2
  else if 140 ≤ S ∨ 90 ≤ D then 3
  else 0

theorem bpScore_invalid_eq_parse_none (v : JSValue) :
    ((bpScore v).invalid = true) ↔ parseBP v = none := by
  unfold bpScore
  cases h : parseBP v with
  | none => simp
  | some pr =>
    obtain ⟨sys, dia⟩ := pr
    simp only
    split_ifs <;> simp

theorem splitSlash_ne_nil (cs : List Char) : splitSlash cs ≠ [] := by
  induction cs with
  | nil => simp [splitSlash]
  | cons c cs ih =>
    simp only [splitSlash]
    split_ifs
    · simp
    · cases h : splitSlash cs <;> simp

/-- C1: for every patient record processed by the classification loop, the
patient id is appended to the high-risk output list if and only if the total
risk score (the sum of the blood-pressure, temperature and age scores, an
invalid signal contributing its zero score) is at least 4. -/
theorem highRisk_append_iff_total_ge_four (r : Report) (p : Patient) :
    (processPatient r p).high_risk_patients =
      r.high_risk_patients ++
        (if 4 ≤ totalRiskOf p then [p.patient_id] else []) := by
  unfold processPatient totalRiskOf
  simp only [apply_ite Report.high_risk_patients]
  split_ifs <;> simp

/-- C2: for every blood-pressure string parsing into numeric systolic S and
diastolic D, the score follows the five-branch table of the specification,
and each of the seven stated boundary strings scores as listed. -/
theorem bpScore_follows_spec_table :
    (∀ (bp : String) (S D : ℚ),
      parseBP (.str bp) = some (some (.num S), some (.num D)) →
      bpScore (.str bp) = ⟨specBPTable S D, false⟩)
    ∧ bpScore (.str "119/79") = ⟨0, false⟩
    ∧ bpScore (.str "120/79") = ⟨1, false⟩
    ∧ bpScore (.str "129/79") = ⟨1, false⟩
    ∧ bpScore (.str "130/79") = ⟨2, false⟩
    ∧ bpScore (.str "139/89") = ⟨2, false⟩
    ∧ bpScore (.str "140/79") = ⟨3, false⟩
    ∧ bpScore (.str "115/90") = ⟨3, false⟩ := by
  refine ⟨?_, by decide, by decide, by decide, by decide, by decide, by decide, by decide⟩
  intro bp S D h
  unfold bpScore
  rw [h]
  simp only [oLt, oLe, oGe, numLt, numLe, numGe, specBPTable]
  split_ifs <;> simp_all

theorem bpScore_follows_spec_table_witness :
    parseBP (.str "120/79") = some (some (.num 120), some (.num 79))
    ∧ bpScore (.str "120/79") = ⟨specBPTable 120 79, false⟩ :=
  ⟨by decide, bpScore_follows_spec_table.1 "120/79" 120 79 (by decide)⟩

/-- C5 counterexample: a blood-pressure string with three slash-separated
components, and one with an empty second component, are both accepted by the
code (invalid = false), where the claim calls them invalid. -/
theorem bp_extra_components_not_invalid :
    bpScore (.str "120/80/90") = ⟨2, false⟩
    ∧ bpScore (.str "120/") = ⟨1, false⟩
    ∧ bpScore (.str "120") = ⟨0, false⟩ := by decide

/-- C5 amended: the blood-pressure signal is the invalid zero-score result
exactly when the value is missing, null, empty or not a string, or Number()
of the first slash-separated component is NaN, or a second component exists
and its Number() is NaN.  Components beyond the second are ignored, a
one-component string leaves the diastolic slot undefined (not invalid, since
Number.isNaN(undefined) is false), and an empty component coerces to 0. -/
theorem bp_invalid_characterization (v : JSValue) :
    bpScore v = ⟨0, true⟩ ↔
      (match v with
       | .str s => s = ""
           ∨ jsIsNaN (jsNumber ((splitSlash s.toList).headD [])) = true
           ∨ (2 ≤ (splitSlash s.toList).length ∧
              jsIsNaN (jsNumber ((splitSlash s.toList).getD 1 [])) = true)
       | _ => True) := by
  have hinv : bpScore v = ⟨0, true⟩ ↔ parseBP v = none := by
    constructor
    · intro h
      exact (bpScore_invalid_eq_parse_none v).mp (by rw [h])
    · intro h
      unfold bpScore
      rw [h]
  rw [hinv]
  cases v with
  | str s =>
    by_cases hs : s = ""
    · simp [parseBP, isInvalid, hs]
    · simp only [parseBP, isInvalid]
      cases hsp : splitSlash s.toList with
      | nil => exact absurd hsp (splitSlash_ne_nil _)
      | cons a t =>
        cases t with
        | nil => simp [hs, hsp, jsIsNaNOpt, List.headD, List.getD]
        | cons b t2 =>
          simp [hs, hsp, jsIsNaNOpt, List.headD, List.getD]
          cases jsIsNaN (jsNumber a) <;> cases jsIsNaN (jsNumber b) <;> simp
  | undef => simp [parseBP, isInvalid]
  | null => simp [parseBP, isInvalid]
  | number n => simp [parseBP, isInvalid]
  | boolean b => simp [parseBP, isInvalid]
  | obj => simp [parseBP, isInvalid]

/-- C6: the age signal flags every non-number value as the invalid zero
score, and otherwise scores strictly below 40 as 0, 40 through 65 inclusive
as 1, and above 65 as 2, including the four stated boundary ages. -/
theorem ageScore_brackets :
    (∀ v : JSValue, (∀ n, v ≠ .number n) → ageScore v = ⟨0, true⟩)
    ∧ (∀ q : ℚ, q < 40 → ageScore (.number (.num q)) = ⟨0, false⟩)
    ∧ (∀ q : ℚ, 40 ≤ q → q ≤ 65 → ageScore (.number (.num q)) = ⟨1, false⟩)
    ∧ (∀ q : ℚ, 65 < q → ageScore (.number (.num q)) = ⟨2, false⟩)
    ∧ ageScore (.number (.num 39)) = ⟨0, false⟩
    ∧ ageScore (.number (.num 40)) = ⟨1, false⟩
    ∧ ageScore (.number (.num 65)) = ⟨1, false⟩
    ∧ ageScore (.number (.num 66)) = ⟨2, false⟩ := by
  refine ⟨?_, ?_, ?_, ?_, by decide, by decide, by decide, by decide⟩
  · intro v hv
    cases v with
    | number n => exact absurd rfl (hv n)
    | undef => simp [ageScore, isInvalid]
    | null => simp [ageScore, isInvalid]
    | str s => simp [ageScore, isInvalid]
    | boolean b => simp [ageScore, isInvalid]
    | obj => simp [ageScore, isInvalid]
  · intro q hq
    simp [ageScore, isInvalid, numLt, numGe, numLe, numGt, hq]
  · intro q hq1 hq2
    simp [ageScore, isInvalid, numLt, numGe, numLe, numGt, hq1, hq2, not_lt.mpr hq1]
  · intro q hq
    have h1 : ¬q < 40 := by linarith
    have h2 : ¬q ≤ 65 := by linarith
    simp [ageScore, isInvalid, numLt, numGe, numLe, numGt, h1, h2, hq]

theorem ageScore_brackets_witness :
    ageScore .null = ⟨0, true⟩
    ∧ ageScore (.number (.num 39)) = ⟨0, false⟩
    ∧ ageScore (.number (.num 40)) = ⟨1, false⟩
    ∧ ageScore (.number (.num 66)) = ⟨2, false⟩ :=
  ⟨ageScore_brackets.1 .null (fun n h => JSValue.noConfusion h),
   ageScore_brackets.2.1 39 (by norm_num),
   ageScore_brackets.2.2.1 40 (by norm_num) (by norm_num),
   ageScore_brackets.2.2.2.1 66 (by norm_num)⟩

/-- C7: the patient id is appended to the fever output list exactly when the
raw temperature field is a number whose value is at least 99.6 (encoded as
the rational 996/10); the test reads the raw field only, so it is unaffected
by any invalid flag, and every non-number temperature fails it. -/
theorem fever_append_iff_numeric_threshold :
    (∀ (r : Report) (p : Patient),
      (processPatient r p).fever_patients =
        r.fever_patients ++ (if feverCheck p.temperature then [p.patient_id] else []))
    ∧ (∀ t : JSNum, feverCheck (.number t) = numGe t (mkRat 996 10))
    ∧ (∀ v : JSValue, (∀ t, v ≠ .number t) → feverCheck v = false) := by
  refine ⟨?_, fun t => rfl, ?_⟩
  · intro r p
    unfold processPatient
    simp only [apply_ite Report.fever_patients]
    split_ifs <;> simp
  · intro v hv
    cases v with
    | number n => exact absurd rfl (hv n)
    | undef => rfl
    | null => rfl
    | str s => rfl
    | boolean b => rfl
    | obj => rfl

theorem fever_append_iff_numeric_threshold_witness :
    (processPatient emptyReport
        ⟨"F1", .null, .number (.num (mkRat 997 10)), .null⟩).fever_patients =
      [] ++ [(⟨"F1", .null, .number (.num (mkRat 997 10)), .null⟩ : Patient).patient_id]
    ∧ feverCheck .null = false := by
  constructor
  · have h := fever_append_iff_numeric_threshold.1 emptyReport
      ⟨"F1", .null, .number (.num (mkRat 997 10)), .null⟩
    rw [h]
    decide
  · exact fever_append_iff_numeric_threshold.2.2 .null (fun t h => JSValue.noConfusion h)

/-- C8: each scorer is a total function of its JS input (totality is by
construction of the three definitions), an invalid signal always carries
score 0, and the patient id is appended to data_quality_issues exactly when
at least one of the three signals is invalid. -/
theorem classify_never_fails_dq_routing :
    (∀ v, (bpScore v).invalid = true → (bpScore v).score = 0)
    ∧ (∀ v, (tempScore v).invalid = true → (tempScore v).score = 0)
    ∧ (∀ v, (ageScore v).invalid = true → (ageScore v).score = 0)
    ∧ (∀ (r : Report) (p : Patient),
        (processPatient r p).data_quality_issues =
          r.data_quality_issues ++
            (if (bpScore p.blood_pressure).invalid || (tempScore p.temperature).invalid
                || (ageScore p.age).invalid then [p.patient_id] else [])) := by
  refine ⟨?_, ?_, ?_, ?_⟩
  · intro v h
    unfold bpScore at *
    cases hp : parseBP v with
    | none => simp [hp]
    | some pr =>
      obtain ⟨sys, dia⟩ := pr
      rw [hp] at h
      simp only at h
      split_ifs at h
  · intro v h
    unfold tempScore at *
    split_ifs at *
    · rfl
    · cases v <;> first | rfl | (simp only at h ⊢; split_ifs at h)
  · intro v h
    unfold ageScore at *
    split_ifs at *
    · rfl
    · cases v <;> first | rfl | (simp only at h ⊢; split_ifs at h)
  · intro r p
    unfold processPatient
    simp only [apply_ite Report.data_quality_issues]
    split_ifs <;> simp

theorem classify_never_fails_dq_routing_witness :
    (bpScore .null).score = 0
    ∧ (tempScore (.str "abc")).score = 0
    ∧ (ageScore .undef).score = 0
    ∧ (processPatient emptyReport ⟨"D1", .null, .str "abc", .undef⟩).data_quality_issues =
        [] ++ [(⟨"D1", .null, .str "abc", .undef⟩ : Patient).patient_id] := by
  refine ⟨classify_never_fails_dq_routing.1 .null (by decide),
    classify_never_fails_dq_routing.2.1 (.str "abc") (by decide),
    classify_never_fails_dq_routing.2.2.1 .undef (by decide), ?_⟩
  have h := classify_never_fails_dq_routing.2.2.2 emptyReport ⟨"D1", .null, .str "abc", .undef⟩
  rw [h]
  decide

/-- C10: a temperature field holding the number NaN scores 0 with no invalid
flag, so such a record is neither put on the fever list nor routed to
data_quality_issues on account of its temperature (only an invalid blood
pressure or age can still route it there). -/
theorem temp_nan_scores_zero_without_flag :
    tempScore (.number .nan) = ⟨0, false⟩
    ∧ (∀ (r : Report) (p : Patient), p.temperature = .number .nan →
        (processPatient r p).fever_patients = r.fever_patients
        ∧ (processPatient r p).data_quality_issues =
            r.data_quality_issues ++
              (if (bpScore p.blood_pressure).invalid || (ageScore p.age).invalid
               then [p.patient_id] else [])) := by
  refine ⟨by decide, ?_⟩
  intro r p hp
  constructor
  · rw [fever_append_iff_numeric_threshold.1 r p, hp]
    simp [feverCheck, numGe]
  · rw [classify_never_fails_dq_routing.2.2.2 r p, hp]
    simp [tempScore, isInvalid, numLe, numGe]

theorem temp_nan_scores_zero_without_flag_witness :
    (processPatient emptyReport ⟨"N1", .str "120/80", .number .nan, .number (.num 50)⟩).fever_patients = []
    ∧ (processPatient emptyReport
        ⟨"N1", .str "120/80", .number .nan, .number (.num 50)⟩).data_quality_issues =
        [] ++ (if (bpScore (.str "120/80")).invalid || (ageScore (.number (.num 50))).invalid
               then ["N1"] else []) := by
  have h := temp_nan_scores_zero_without_flag.2 emptyReport
    ⟨"N1", .str "120/80", .number .nan, .number (.num 50)⟩ rfl
  exact ⟨h.1, h.2⟩

theorem fetch_step_retry (oracle : Nat → FetchOutcome) (r a s : Nat)
    (hr : oracle a = .resp s) (hok : isOk s = false) (hre : isRetryable s = true)
    (hle : a ≤ r) :
    fetchWithRetry oracle r a =
      ((fetchWithRetry oracle r (a + 1)).1, (fetchWithRetry oracle r (a + 1)).2 + 1) := by
  rw [fetchWithRetry, hr]
  simp [hok, hre, Nat.not_lt.mpr hle]

theorem fetch_step_exhaust (oracle : Nat → FetchOutcome) (r a s : Nat)
    (hr : oracle a = .resp s) (hok : isOk s = false) (hre : isRetryable s = true)
    (hlt : r < a) :
    fetchWithRetry oracle r a = (.exhausted r s, 1) := by
  rw [fetchWithRetry, hr]
  simp [hok, hre, hlt]

theorem fetch_step_nonretry (oracle : Nat → FetchOutcome) (r a s : Nat)
    (hr : oracle a = .resp s) (hok : isOk s = false) (hre : isRetryable s = false)
    (hle : a ≤ r) :
    fetchWithRetry oracle r a =
      ((fetchWithRetry oracle r (a + 1)).1, (fetchWithRetry oracle r (a + 1)).2 + 1) := by
  rw [fetchWithRetry, hr]
  simp [hok, hre, hle]

/-- C3 under its failing input: the throw of the non-retryable error sits
inside the try block of fetchWithRetry, so the surrounding catch treats it
like a network error and retries while attempt <= retries.  A 404 followed by
a 200 therefore succeeds on a second request instead of failing immediately,
and six straight 404s issue six requests before surfacing the non-retryable
error. -/
theorem nonretryable_status_is_retried :
    fetchWithRetry (fun k => if k = 1 then .resp 404 else .resp 200) 5 1 =
      (.success 200 2, 2)
    ∧ fetchWithRetry (fun _ => .resp 404) 5 1 = (.nonRetryable 404, 6) := by
  constructor
  · rw [fetch_step_nonretry _ 5 1 404 rfl rfl rfl (by norm_num)]
    rw [fetchWithRetry]
    norm_num
    decide
  · rw [fetch_step_nonretry _ 5 1 404 rfl rfl rfl (by norm_num),
      fetch_step_nonretry _ 5 2 404 rfl rfl rfl (by norm_num),
      fetch_step_nonretry _ 5 3 404 rfl rfl rfl (by norm_num),
      fetch_step_nonretry _ 5 4 404 rfl rfl rfl (by norm_num),
      fetch_step_nonretry _ 5 5 404 rfl rfl rfl (by norm_num)]
    rw [fetchWithRetry]
    norm_num
    decide

/-- C4: with the default budget of 5 retries, any six consecutive retryable
non-2xx responses make fetchWithRetry stop with the retries-exhausted error
carrying the status observed on the sixth request, after exactly 6 requests,
so a seventh attempt is never issued. -/
theorem retries_exhausted_after_six_attempts (oracle : Nat → FetchOutcome)
    (h : ∀ k, 1 ≤ k → k ≤ 6 →
      ∃ s, oracle k = .resp s ∧ isOk s = false ∧ isRetryable s = true) :
    ∃ s, oracle 6 = .resp s ∧ fetchWithRetry oracle 5 1 = (.exhausted 5 s, 6) := by
  obtain ⟨s1, h1, h1a, h1b⟩ := h 1 (by norm_num) (by norm_num)
  obtain ⟨s2, h2, h2a, h2b⟩ := h 2 (by norm_num) (by norm_num)
  obtain ⟨s3, h3, h3a, h3b⟩ := h 3 (by norm_num) (by norm_num)
  obtain ⟨s4, h4, h4a, h4b⟩ := h 4 (by norm_num) (by norm_num)
  obtain ⟨s5, h5, h5a, h5b⟩ := h 5 (by norm_num) (by norm_num)
  obtain ⟨s6, h6, h6a, h6b⟩ := h 6 (by norm_num) (by norm_num)
  refine ⟨s6, h6, ?_⟩
  rw [fetch_step_retry _ 5 1 s1 h1 h1a h1b (by norm_num),
    fetch_step_retry _ 5 2 s2 h2 h2a h2b (by norm_num),
    fetch_step_retry _ 5 3 s3 h3 h3a h3b (by norm_num),
    fetch_step_retry _ 5 4 s4 h4 h4a h4b (by norm_num),
    fetch_step_retry _ 5 5 s5 h5 h5a h5b (by norm_num),
    fetch_step_exhaust _ 5 6 s6 h6 h6a h6b (by norm_num)]

theorem retries_exhausted_after_six_attempts_witness :
    ∃ s, (fun _ => FetchOutcome.resp 500) 6 = FetchOutcome.resp s
      ∧ fetchWithRetry (fun _ => FetchOutcome.resp 500) 5 1 = (.exhausted 5 s, 6) :=
  retries_exhausted_after_six_attempts (fun _ => .resp 500)
    (fun k _ _ => ⟨500, rfl, by decide, by decide⟩)

theorem runPages_sound : ∀ (pages : List PageResp) (rep : Report) (count : Nat)
    (texp : Option Int) (res : RunResult),
    runPages pages rep count texp = some res →
    (∃ pg rest, pages = pg :: rest ∧ res.totalExpected = texp.getD pg.total)
    ∧ res.report = (collectedData pages).foldl processPatient rep
    ∧ res.processed = count + (collectedData pages).length
    ∧ res.warned = decide ((res.processed : Int) ≠ res.totalExpected) := by
  intro pages
  induction pages with
  | nil => intro rep count texp res h; simp [runPages] at h
  | cons pg rest ih =>
    intro rep count texp res h
    simp only [runPages] at h
    by_cases hn : pg.hasNext = true
    · rw [if_pos hn] at h
      obtain ⟨⟨pg2, rest2, hr2, ht2⟩, hrep, hcount, hw⟩ := ih _ _ _ _ h
      refine ⟨⟨pg, rest, rfl, ?_⟩, ?_, ?_, hw⟩
      · rw [ht2]; simp
      · rw [hrep]; simp [collectedData, hn, List.foldl_append]
      · rw [hcount]; simp [collectedData, hn]; omega
    · rw [if_neg hn] at h
      cases h
      refine ⟨⟨pg, rest, rfl, rfl⟩, ?_, ?_, ?_⟩ <;>
        simp [collectedData, hn]

theorem runPages_completes : ∀ (front : List PageResp) (last : PageResp)
    (rep : Report) (count : Nat) (texp : Option Int),
    (∀ pg ∈ front, pg.hasNext = true) → last.hasNext = false →
    (runPages (front ++ [last]) rep count texp).isSome = true := by
  intro front
  induction front with
  | nil =>
    intro last rep count texp _ hl
    simp [runPages, hl]
  | cons pg rest ih =>
    intro last rep count texp hf hl
    have hpg : pg.hasNext = true := hf pg (by simp)
    simp only [List.cons_append, runPages, if_pos hpg]
    exact ih last _ _ _ (fun q hq => hf q (by simp [hq])) hl

/-- C9: whenever the pagination loop finishes, the expected total is the
first page's pagination.total (later pages' totals are ignored), a mismatch
with processedCount sets only the warning flag, and the final report is
always the fold of the classifier over every record the loop collected;
moreover a run whose last page clears hasNext always produces a result, so a
total mismatch never aborts the run. -/
theorem pagination_total_capture_and_warning :
    (∀ (pages : List PageResp) (res : RunResult), run pages = some res →
      (∃ pg rest, pages = pg :: rest ∧ res.totalExpected = pg.total)
      ∧ res.report = (collectedData pages).foldl processPatient emptyReport
      ∧ res.processed = (collectedData pages).length
      ∧ res.warned = decide ((res.processed : Int) ≠ res.totalExpected))
    ∧ (∀ (front : List PageResp) (last : PageResp),
        (∀ pg ∈ front, pg.hasNext = true) → last.hasNext = false →
        (run (front ++ [last])).isSome = true) := by
  constructor
  · intro pages res h
    obtain ⟨⟨pg, rest, hpr, ht⟩, hrep, hc, hw⟩ :=
      runPages_sound pages emptyReport 0 none res h
    exact ⟨⟨pg, rest, hpr, by simpa using ht⟩, hrep, by simpa using hc, hw⟩
  · intro front last hf hl
    exact runPages_completes front last emptyReport 0 none hf hl

theorem pagination_total_capture_and_warning_witness :
    ((∃ pg rest,
        ([⟨[⟨"A", .null, .null, .null⟩], 5, true⟩,
          ⟨[⟨"B", .null, .null, .null⟩], 5, false⟩] : List PageResp) = pg :: rest
        ∧ (⟨⟨[], [], ["A", "B"]⟩, 2, 5, true⟩ : RunResult).totalExpected = pg.total)
      ∧ (⟨⟨[], [], ["A", "B"]⟩, 2, 5, true⟩ : RunResult).report =
          (collectedData
            [⟨[⟨"A", .null, .null, .null⟩], 5, true⟩,
             ⟨[⟨"B", .null, .null, .null⟩], 5, false⟩]).foldl processPatient emptyReport
      ∧ (⟨⟨[], [], ["A", "B"]⟩, 2, 5, true⟩ : RunResult).processed =
          (collectedData
            [⟨[⟨"A", .null, .null, .null⟩], 5, true⟩,
             ⟨[⟨"B", .null, .null, .null⟩], 5, false⟩]).length
      ∧ (⟨⟨[], [], ["A", "B"]⟩, 2, 5, true⟩ : RunResult).warned =
          decide (((⟨⟨[], [], ["A", "B"]⟩, 2, 5, true⟩ : RunResult).processed : Int) ≠
            (⟨⟨[], [], ["A", "B"]⟩, 2, 5, true⟩ : RunResult).totalExpected))
    ∧ (run ([⟨[], 3, true⟩] ++ [⟨[], 0, false⟩])).isSome = true :=
  ⟨pagination_total_capture_and_warning.1
      [⟨[⟨"A", .null, .null, .null⟩], 5, true⟩,
       ⟨[⟨"B", .null, .null, .null⟩], 5, false⟩]
      ⟨⟨[], [], ["A", "B"]⟩, 2, 5, true⟩ (by decide),
   pagination_total_capture_and_warning.2 [⟨[], 3, true⟩] ⟨[], 0, false⟩
      (by decide) rfl⟩
